import Mathlib

/-!
Verification of the video-brief processor (`src/processor.py`, `core/processor.py`).

The Python source is shallowly embedded: pure string manipulation becomes Lean
functions on `String`/`List Char`; the LLM gateway and the filesystem are
oracles passed in as function arguments; Python exceptions become an explicit
`PyError` sum carried in `Except`.  Machine behaviour that the claims depend on
(`str.strip`, `os.path.splitext`, Python regex search, the `or`-defaulting
idiom, unbound-local errors) is modelled explicitly.
-/

namespace BriefWriter

/-- Python whitespace: the characters stripped by `str.strip()` and matched by
the regex class `\s` (space, tab, newline, carriage return, vertical tab,
form feed). -/
def isPySpace (c : Char) : Bool :=
  c = ' ' || c = '\t' || c = '\n' || c = '\r' || c = '\x0b' || c = '\x0c'

/-- Python `str.strip()` restricted to the whitespace character class. -/
def pyStrip (s : String) : String :=
  String.mk (((s.data.dropWhile isPySpace).reverse.dropWhile isPySpace).reverse)

/-- Whether `pat` is a prefix of `hay` (character lists). -/
def hasPrefixList : List Char → List Char → Bool
  | _, [] => true
  | [], _ :: _ => false
  | a :: as, b :: bs => a = b && hasPrefixList as bs

/-- Whether `pat` occurs contiguously inside `hay`: Python's `pat in hay`. -/
def containsSub : List Char → List Char → Bool
  | [], pat => pat.isEmpty
  | hay@(_ :: rest), pat => hasPrefixList hay pat || containsSub rest pat

/-- Python `sub in s` on strings. -/
def containsStr (s sub : String) : Bool :=
  containsSub s.data sub.data

/-- Python `str.lower()` (ASCII case folding, which covers every model name and
error signature the code compares). -/
def lowerStr (s : String) : String :=
  String.mk (s.data.map Char.toLower)

/-! ### Title extraction (`extract_title_from_brief`, src/src/processor.py)

The three `re.search` patterns are embedded directly.  Each embedding follows
Python regex semantics: leftmost match wins; `.` does not match a newline;
lazy `.*?` prefers the shortest extension; greedy `\s*` followed by a literal
that is not whitespace deterministically skips the whole whitespace run. -/

/-- The regex tail `\s*"([^"]+)"`: skip whitespace, require an opening quote,
capture one or more non-quote characters, require a closing quote. -/
def quotedAfterColon (cs : List Char) : Option String :=
  let rest := cs.dropWhile isPySpace
  match rest with
  | '"' :: rest2 =>
    let cap := rest2.takeWhile (fun c => c ≠ '"')
    match rest2.dropWhile (fun c => c ≠ '"') with
    | '"' :: _ => if cap.isEmpty then none else some (String.mk cap)
    | _ => none
  | _ => none

/-- The lazy scan for `(?:.*?):` followed by `\s*"([^"]+)"`: try each colon in
order (earliest first); `.*?` cannot cross a newline. -/
def adColonScan : List Char → Option String
  | [] => none
  | c :: rest =>
    if c = ':' then
      match quotedAfterColon rest with
      | some t => some t
      | none => adColonScan rest
    else if c = '\n' then none
    else adColonScan rest

/-- Pattern 1 of `extract_title_from_brief`: `re.search` with
`Ad (?:.*?):\s*"([^"]+)"`. -/
def searchAdPattern : List Char → Option String
  | [] => none
  | c :: rest =>
    match (if hasPrefixList (c :: rest) ['A', 'd', ' '] then adColonScan (rest.drop 2) else none) with
    | some t => some t
    | none => searchAdPattern rest

/-- Pattern 2 of `extract_title_from_brief`: `re.search` with
`Video Title:\s*"([^"]+)"`. -/
def searchVideoTitle : List Char → Option String
  | [] => none
  | c :: rest =>
    match (if hasPrefixList (c :: rest) ("Video Title:".data) then
             quotedAfterColon ((c :: rest).drop 12) else none) with
    | some t => some t
    | none => searchVideoTitle rest

/-- After a line anchor, the fragment `\s*(?:Title|title):\s*"?([^"]*)"?`.
Note that the source alternation matches exactly the spellings `Title` and
`title`, and the capture `[^"]*` runs to the next quote or the end of the
text, possibly across newlines. -/
def titleLineMatch (cs : List Char) : Option String :=
  let rest := cs.dropWhile isPySpace
  if hasPrefixList rest ("Title:".data) || hasPrefixList rest ("title:".data) then
    let after := (rest.drop 6).dropWhile isPySpace
    match after with
    | '"' :: r2 => some (String.mk (r2.takeWhile (fun c => c ≠ '"')))
    | _ => some (String.mk (after.takeWhile (fun c => c ≠ '"')))
  else none

/-- The `\n`-anchored alternative of pattern 3: try the fragment after each
newline, earliest first. -/
def titleAfterNewlines : List Char → Option String
  | [] => none
  | c :: rest =>
    if c = '\n' then
      match titleLineMatch rest with
      | some t => some t
      | none => titleAfterNewlines rest
    else titleAfterNewlines rest

/-- Pattern 3 of `extract_title_from_brief`: `re.search` with
`(?:^|\n)\s*(?:Title|title):\s*"?([^"]*)"?`. -/
def searchTitleLine (cs : List Char) : Option String :=
  match titleLineMatch cs with
  | some t => some t
  | none => titleAfterNewlines cs

/-- Embeds `extract_title_from_brief` (src/src/processor.py): the three
patterns are tried in order and the first match wins. -/
def extract_title_from_brief (content_brief : String) : Option String :=
  match searchAdPattern content_brief.data with
  | some t => some t
  | none =>
    match searchVideoTitle content_brief.data with
    | some t => some t
    | none => searchTitleLine content_brief.data

/-! ### The specification's reading of pattern 3 (for claim C6)

Modelled from the spec: pattern 3 is described as `Title:` matched
case-insensitively at the start of a line, capturing the remainder of that
line, optionally quoted.  This differs from the source regex, which matches
only the spellings `Title`/`title` and whose capture may cross lines. -/

/-- Pattern 3 as the specification words it: case-insensitive `Title:` after a
line anchor and optional whitespace, capturing the rest of the line with
optional surrounding quotes. -/
def titleLineMatchClaimed (cs : List Char) : Option String :=
  let rest := cs.dropWhile isPySpace
  if hasPrefixList (rest.map Char.toLower) ("title:".data) then
    let lineRest := ((rest.drop 6).takeWhile (fun c => c ≠ '\n')).dropWhile isPySpace
    match lineRest with
    | '"' :: r2 => some (String.mk (r2.takeWhile (fun c => c ≠ '"')))
    | _ => some (String.mk (lineRest.takeWhile (fun c => c ≠ '"')))
  else none

/-- The `\n`-anchored scan for the claimed pattern 3. -/
def titleClaimedAfterNewlines : List Char → Option String
  | [] => none
  | c :: rest =>
    if c = '\n' then
      match titleLineMatchClaimed rest with
      | some t => some t
      | none => titleClaimedAfterNewlines rest
    else titleClaimedAfterNewlines rest

/-- Search for the claimed pattern 3 anywhere in the text. -/
def searchTitleLineClaimed (cs : List Char) : Option String :=
  match titleLineMatchClaimed cs with
  | some t => some t
  | none => titleClaimedAfterNewlines cs

/-- Title extraction as claim C6 words it: patterns 1 and 2 as in the source,
pattern 3 in the claimed case-insensitive line-bounded form. -/
def extractTitleClaimed (content_brief : String) : Option String :=
  match searchAdPattern content_brief.data with
  | some t => some t
  | none =>
    match searchVideoTitle content_brief.data with
    | some t => some t
    | none => searchTitleLineClaimed content_brief.data

/-! ### Filename sanitization (`process_video`, src/src/processor.py) -/

/-- The character filter of the sanitizer:
`c.isalnum() or c in ' -_()[]'`.  Python `str.isalnum` is modelled as ASCII
alphanumeric, which covers every input the claims mention. -/
def keepChar (c : Char) : Bool :=
  c.isAlphanum || c = ' ' || c = '-' || c = '_' || c = '(' || c = ')' || c = '[' || c = ']'

/-- Embeds the sanitization in `process_video`:
`''.join(c for c in file_title if c.isalnum() or c in ' -_()[]').strip()`
followed by `.replace(' ', '_')`. -/
def sanitizeTitle (t : String) : String :=
  let kept := t.data.filter keepChar
  let stripped := ((kept.dropWhile isPySpace).reverse.dropWhile isPySpace).reverse
  String.mk (stripped.map (fun c => if c = ' ' then '_' else c))

/-! ### Python exceptions and the gateway oracle -/

/-- The Python exceptions that the processor raises or propagates.
`nameError v` models the `UnboundLocalError` raised when the local variable
`v` is referenced before assignment; `invokeError` wraps an exception thrown
by the gateway's `invoke`. -/
inductive PyError where
  | runtimeError (msg : String)
  | nameError (var : String)
  | fileNotFoundError (msg : String)
  | invokeError (msg : String)
deriving DecidableEq

/-- Python `str(e)` on the exceptions above. -/
def errText : PyError → String
  | .runtimeError m => m
  | .nameError v => "cannot access local variable " ++ v ++ " where it is not associated with a value"
  | .fileNotFoundError m => m
  | .invokeError m => m

/-- The request payload shapes `process_video` sends to `llm.invoke`:
the two-element array `[instruction, video_path]`, the nested
`contents`/role/parts envelope, and a media reference with a separate
`system` keyword argument. -/
inductive Payload where
  | arrayPair (instruction : String) (media : String)
  | contentsEnvelope (instruction : String) (media : String)
  | mediaWithSystem (media : String) (sys : String)
deriving DecidableEq

/-- The external model gateway, as an oracle.  `load` is `load_model` on a
model identifier (team and use case are fixed per session and elided);
`invoke` is `handle.invoke`, indexed by a global call counter so that
successive calls may behave differently. -/
structure Gateway where
  load : String → Except String Unit
  invoke : Nat → Payload → Except String String

/-! ### Configuration and session state -/

/-- The configuration keys the processor reads.  `FALLBACK_MODELS` is `none`
when the key is absent from the config dictionary. -/
structure Config where
  DEFAULT_LLM_MODEL : String
  FALLBACK_MODELS : Option (List String)
  BRIEF_DIR : String
  BRIEF_EXTENSION : String

/-- The module-level default fallback list from src/src/processor.py. -/
def DEFAULT_FALLBACK_MODELS : List String :=
  ["gemini-2.5-pro", "gemini-2.5-flash", "gemini-2.0-flash-001",
   "gemini-2.0-flash-lite-001", "anthropic.claude-3-sonnet-20240229-v1:0"]

/-- `model_name or config['DEFAULT_LLM_MODEL']` in `Processor.__init__`:
a missing or empty (falsy) argument defaults to the configured model. -/
def primaryModelName (config : Config) (model_name : Option String) : String :=
  match model_name with
  | some m => if m = "" then config.DEFAULT_LLM_MODEL else m
  | none => config.DEFAULT_LLM_MODEL

/-- The mutable session state of a `Processor` instance: the cached gateway
handle `self._llm` (identified by the name of the model it was loaded for)
and `self.working_model_name`. -/
structure ProcState where
  llmHandle : Option String
  working_model_name : Option String
deriving DecidableEq

/-! ### Model loading with fallback (`_load_model_with_fallback`) -/

/-- The candidate-list construction in `_load_model_with_fallback`:
start from the primary model and append each fallback model not already
present. -/
def modelsToTry (primary : String) (fallback_models : List String) : List String :=
  fallback_models.foldl (fun acc m => if m ∈ acc then acc else acc ++ [m]) [primary]

/-- The candidate list of a session: primary model first, then
`config.get('FALLBACK_MODELS', DEFAULT_FALLBACK_MODELS)` deduplicated. -/
def sessionCandidates (config : Config) (primary : String) : List String :=
  modelsToTry primary (config.FALLBACK_MODELS.getD DEFAULT_FALLBACK_MODELS)

/-- The probing loop of `_load_model_with_fallback`.  `last` models the local
`error_msg` (none = not yet assigned).  Returns the list of candidates that
were probed, and either the first model that loaded or the terminal error.
When every candidate fails the code raises `RuntimeError` mentioning the last
failure; with an empty candidate list `error_msg` would be unbound. -/
def loadFallbackGo (load : String → Except String Unit) :
    List String → Option String → List String × Except PyError String
  | [], last =>
    ([], .error (match last with
      | some e => .runtimeError ("All multimodal models failed to load: Last error: " ++ e)
      | none => .nameError "error_msg"))
  | m :: rest, _last =>
    match load m with
    | .ok _ => ([m], .ok m)
    | .error e =>
      let r := loadFallbackGo load rest (some e)
      (m :: r.1, r.2)

/-- Embeds `_load_model_with_fallback` applied to an already-built candidate
list. -/
def loadWithFallback (load : String → Except String Unit) (models : List String) :
    List String × Except PyError String :=
  loadFallbackGo load models none

/-- Whether `load_model` succeeds on a given identifier. -/
def loadOk (load : String → Except String Unit) (m : String) : Bool :=
  match load m with
  | .ok _ => true
  | .error _ => false

/-- Index of the first candidate that loads, if any (specification helper). -/
def firstOkIdx (load : String → Except String Unit) : List String → Option Nat
  | [] => none
  | m :: rest =>
    if loadOk load m then some 0 else (firstOkIdx load rest).map (· + 1)

/-- The load failure reason of the last candidate (specification helper). -/
def lastLoadErr (load : String → Except String Unit) (models : List String) : String :=
  match models.getLast? with
  | some m =>
    match load m with
    | .error e => e
    | .ok _ => ""
  | none => ""

/-- Decidable equality for `Except`, used to evaluate concrete runs. -/
instance {ε α : Type} [DecidableEq ε] [DecidableEq α] : DecidableEq (Except ε α) := fun x y =>
  match x, y with
  | .ok a, .ok b =>
    if h : a = b then .isTrue (by rw [h]) else .isFalse (fun hc => h (Except.ok.inj hc))
  | .error a, .error b =>
    if h : a = b then .isTrue (by rw [h]) else .isFalse (fun hc => h (Except.error.inj hc))
  | .ok _, .error _ => .isFalse (fun hc => Except.noConfusion hc)
  | .error _, .ok _ => .isFalse (fun hc => Except.noConfusion hc)

/-! ### One gateway invocation through the lazy `llm` property -/

/-- Result of one `self.llm.invoke(payload)` step: outcome, updated session
state, the payloads actually sent to the gateway, the models probed by a
lazy load, and the next invoke-call index. -/
structure StepOut where
  res : Except PyError String
  st : ProcState
  calls : List Payload
  probes : List String
  k : Nat
deriving DecidableEq

/-- Models `self.llm.invoke(payload)`: the `llm` property lazily runs
`_load_model_with_fallback` (recording the working model on success), then
the handle's `invoke` is called.  A load failure propagates as the exception
of the whole expression and no invoke happens. -/
def invokeLlm (gw : Gateway) (config : Config) (primary : String)
    (st : ProcState) (k : Nat) (payload : Payload) : StepOut :=
  match st.llmHandle with
  | some _ =>
    match gw.invoke k payload with
    | .ok t => ⟨.ok t, st, [payload], [], k + 1⟩
    | .error e => ⟨.error (.invokeError e), st, [payload], [], k + 1⟩
  | none =>
    match loadWithFallback gw.load (sessionCandidates config primary) with
    | (probed, .ok m) =>
      match gw.invoke k payload with
      | .ok t => ⟨.ok t, ⟨some m, some m⟩, [payload], probed, k + 1⟩
      | .error e => ⟨.error (.invokeError e), ⟨some m, some m⟩, [payload], probed, k + 1⟩
    | (probed, .error e) => ⟨.error e, st, [], probed, k⟩

/-! ### Request shaping per provider family (`process_video` try block) -/

/-- The Gemini instruction string built in `process_video` (the source
f-string, with its two adjacent literals concatenated). -/
def geminiInstruction (system_prompt : String) : String :=
  system_prompt ++ "\n\nPlease analyze the following video and create a comprehensive brief according to the instructions above. The video will be provided as the next input."

/-- The combined prompt of the generic branch's second try. -/
def genericPrompt (system_prompt : String) : String :=
  system_prompt ++ "\n\nPlease analyze this video:"

/-- The error signature that makes the Gemini branch retry with the
alternative payload: `"Unknown field" in str(e) or "400" in str(e)`. -/
def hasGeminiRetrySig (e : String) : Bool :=
  containsStr e "Unknown field" || containsStr e "400"

/-- Result of one attempt's request shaping: `res` is `.error e` when the
branch raises `e` to the attempt's outer `except`, `.ok (some t)` when it
assigns `content_brief = t`, and `.ok none` when the Gemini branch's inner
`except` swallows a non-signature invoke error — the source has no
`else: raise` there, so execution falls through with the `content_brief`
local left untouched. -/
structure AttemptOut where
  res : Except PyError (Option String)
  st : ProcState
  calls : List Payload
  probes : List String
  k : Nat
deriving DecidableEq

/-- One attempt's request shaping and invocation(s): the body of the `try`
block of `process_video` up to (not including) the response-length check.
The provider family is chosen by substring match on
`self.working_model_name or ""`.  In the Gemini branch, an invoke error
whose text lacks the `Unknown field`/`400` signature is swallowed by the
inner `except` (no assignment, no re-raise); in every other branch the
attempt either assigns `content_brief` or raises. -/
def attemptBody (gw : Gateway) (config : Config)
    (primary system_prompt video_path : String) (st : ProcState) (k : Nat) : AttemptOut :=
  let model_name := st.working_model_name.getD ""
  if containsStr (lowerStr model_name) "gemini" then
    let instr := geminiInstruction system_prompt
    let o1 := invokeLlm gw config primary st k (.arrayPair instr video_path)
    match o1.res with
    | .ok t => ⟨.ok (some t), o1.st, o1.calls, o1.probes, o1.k⟩
    | .error e =>
      if hasGeminiRetrySig (errText e) then
        let o2 := invokeLlm gw config primary o1.st o1.k (.contentsEnvelope instr video_path)
        match o2.res with
        | .ok t => ⟨.ok (some t), o2.st, o1.calls ++ o2.calls, o1.probes ++ o2.probes, o2.k⟩
        | .error e2 => ⟨.error e2, o2.st, o1.calls ++ o2.calls, o1.probes ++ o2.probes, o2.k⟩
      else
        ⟨.ok none, o1.st, o1.calls, o1.probes, o1.k⟩
  else if containsStr (lowerStr model_name) "claude" then
    let o1 := invokeLlm gw config primary st k (.mediaWithSystem video_path system_prompt)
    match o1.res with
    | .ok t => ⟨.ok (some t), o1.st, o1.calls, o1.probes, o1.k⟩
    | .error e => ⟨.error e, o1.st, o1.calls, o1.probes, o1.k⟩
  else
    let o1 := invokeLlm gw config primary st k (.mediaWithSystem video_path system_prompt)
    match o1.res with
    | .ok t => ⟨.ok (some t), o1.st, o1.calls, o1.probes, o1.k⟩
    | .error _ =>
      let o2 := invokeLlm gw config primary o1.st o1.k (.arrayPair (genericPrompt system_prompt) video_path)
      match o2.res with
      | .ok t => ⟨.ok (some t), o2.st, o1.calls ++ o2.calls, o1.probes ++ o2.probes, o2.k⟩
      | .error e2 => ⟨.error e2, o2.st, o1.calls ++ o2.calls, o1.probes ++ o2.probes, o2.k⟩

/-! ### The retry loop of `process_video` -/

/-- The degenerate-response check:
`not content_brief or len(content_brief.strip()) < 10`. -/
def isDegenerate (content_brief : String) : Bool :=
  if content_brief = "" then true
  else if (pyStrip content_brief).length < 10 then true
  else false

/-- `os.path.join(config['BRIEF_DIR'], safe_title + config['BRIEF_EXTENSION'])`
on POSIX paths. -/
def outputFilePath (config : Config) (safe_title : String) : String :=
  config.BRIEF_DIR ++ "/" ++ safe_title ++ config.BRIEF_EXTENSION

/-- The success tail of an attempt: extract the title, fall back to the video
name when the title is missing or empty (Python truthiness), sanitize, and
build the output path.  Writing the file is modelled by returning the path. -/
def successOutput (config : Config) (video_name content_brief : String) : String × String :=
  let file_title :=
    match extract_title_from_brief content_brief with
    | some t => if t = "" then video_name else t
    | none => video_name
  (content_brief, outputFilePath config (sanitizeTitle file_title))

/-- Retry-delay classification in the `except` branch of `process_video`,
in seconds (0 = retry immediately).  Applied only when retries remain. -/
def retryDelay (attempt : Nat) (error_msg : String) : Nat :=
  if containsStr error_msg "Unknown field for GenerationConfig: system" then 0
  else if containsStr (lowerStr error_msg) "rate limit" || containsStr (lowerStr error_msg) "quota" then
    min (attempt * 2) 10
  else 1

/-- Observable side effects of a run: models probed by lazy loads, payloads
sent to the gateway, and sleeps (in seconds) between attempts. -/
structure Trace where
  probes : List String
  calls : List Payload
  delays : List Nat
deriving DecidableEq

/-- Result of `process_video`: outcome (brief text and saved path, or the
raised exception), final session state, final invoke-call index, and the
trace. -/
structure RunOut where
  res : Except PyError (String × String)
  st : ProcState
  k : Nat
  trace : Trace
deriving DecidableEq

/-- The `for attempt in range(1, max_retries + 1)` loop of `process_video`.
`fuel` is the number of iterations left, `attempt` the 1-based attempt
number; `content_brief` and `error_msg` are the Python locals of those names
(`none` = not yet assigned), which persist across iterations.  An attempt
that assigns a degenerate response `continue`s without touching `error_msg`;
one that falls through without assigning (the Gemini swallow path) raises
`UnboundLocalError` for `content_brief` at the length check, caught by the
outer `except` like any other exception; an exception stores its text and,
when retries remain, sleeps per `retryDelay`.  When the loop ends the code
raises the f-string `RuntimeError` interpolating `max_retries` and
`error_msg`, which is an `UnboundLocalError` if `error_msg` was never
assigned. -/
def processVideoGo (gw : Gateway) (config : Config)
    (primary system_prompt video_path video_name : String) (max_retries : Nat) :
    Nat → Nat → ProcState → Nat → Option String → Option String → Trace → RunOut
  | _attempt, 0, st, k, _content_brief, error_msg, tr =>
    match error_msg with
    | some e =>
      ⟨.error (.runtimeError ("Failed to process video after " ++ toString max_retries ++ " attempts: " ++ e)), st, k, tr⟩
    | none => ⟨.error (.nameError "error_msg"), st, k, tr⟩
  | attempt, fuel + 1, st, k, content_brief, error_msg, tr =>
    let o := attemptBody gw config primary system_prompt video_path st k
    let tr1 : Trace := ⟨tr.probes ++ o.probes, tr.calls ++ o.calls, tr.delays⟩
    match o.res with
    | .ok assigned =>
      match (match assigned with | some t => some t | none => content_brief) with
      | none =>
        let em := errText (.nameError "content_brief")
        if attempt < max_retries then
          processVideoGo gw config primary system_prompt video_path video_name max_retries
            (attempt + 1) fuel o.st o.k none (some em)
            ⟨tr1.probes, tr1.calls, tr1.delays ++ [retryDelay attempt em]⟩
        else
          processVideoGo gw config primary system_prompt video_path video_name max_retries
            (attempt + 1) fuel o.st o.k none (some em) tr1
      | some cb =>
        if isDegenerate cb then
          processVideoGo gw config primary system_prompt video_path video_name max_retries
            (attempt + 1) fuel o.st o.k (some cb) error_msg tr1
        else
          ⟨.ok (successOutput config video_name cb), o.st, o.k, tr1⟩
    | .error e =>
      let em := errText e
      if attempt < max_retries then
        processVideoGo gw config primary system_prompt video_path video_name max_retries
          (attempt + 1) fuel o.st o.k content_brief (some em)
          ⟨tr1.probes, tr1.calls, tr1.delays ++ [retryDelay attempt em]⟩
      else
        processVideoGo gw config primary system_prompt video_path video_name max_retries
          (attempt + 1) fuel o.st o.k content_brief (some em) tr1

/-! ### `process_video` and `process_video_file` -/

/-- `os.path.splitext` on a reversed basename: drop the extension after the
last dot unless the dot only has leading dots before it. -/
def pyStemRev (rev : List Char) : List Char :=
  match rev.dropWhile (fun c => c ≠ '.') with
  | [] => rev
  | _ :: beforeDot =>
    if beforeDot.all (fun c => c = '.') then rev else beforeDot

/-- `os.path.splitext(os.path.basename(video_path))[0]` on POSIX paths. -/
def videoNameOf (video_path : String) : String :=
  String.mk ((pyStemRev (video_path.data.reverse.takeWhile (fun c => c ≠ '/'))).reverse)

/-- Embeds `Processor.process_video` for a session with state `st`
(a fresh `Processor` has `⟨none, none⟩`): three attempts starting from
attempt 1, invoke-call index 0 and unassigned `content_brief` and
`error_msg` locals. -/
def process_video (gw : Gateway) (config : Config)
    (primary system_prompt video_path : String) (st : ProcState) : RunOut :=
  processVideoGo gw config primary system_prompt video_path (videoNameOf video_path) 3
    1 3 st 0 none none ⟨[], [], []⟩

/-- Embeds `process_video_file`: the existence check runs before the
`Processor` is even constructed, and the `except` clause re-raises the
exception unchanged, so the result of `process_video` passes through. -/
def process_video_file (file_exists : Bool) (gw : Gateway) (config : Config)
    (model_name : Option String) (system_prompt video_path : String) : RunOut :=
  if file_exists then
    process_video gw config (primaryModelName config model_name) system_prompt video_path ⟨none, none⟩
  else
    ⟨.error (.fileNotFoundError ("Video file not found at " ++ video_path)), ⟨none, none⟩, 0, ⟨[], [], []⟩⟩

/-! ### The transcript-variant processor (`core/processor.py`) -/

/-- The user prompt template of `Processor.process_transcript`. -/
def transcriptUserPrompt (video_name transcript_text : String) : String :=
  "\nPlease analyze the following video transcript and create a content brief:\n\n# TRANSCRIPT: " ++ video_name ++ "\n" ++ transcript_text ++ "\n"

/-- Embeds `Processor.process_transcript` (core/processor.py): the lazy model
load and the single `llm.invoke(user_prompt, system=...)` both happen inside
a `try` whose `except Exception` returns `("", None)` — every generation
error is converted into that success-shaped tuple. -/
def process_transcript (load : Except String Unit)
    (invoke : String → String → Except String String)
    (brief_dir brief_ext system_prompt video_name transcript_text : String) :
    String × Option String :=
  match load with
  | .error _ => ("", none)
  | .ok _ =>
    match invoke (transcriptUserPrompt video_name transcript_text) system_prompt with
    | .error _ => ("", none)
    | .ok content_brief => (content_brief, some (brief_dir ++ "/" ++ video_name ++ brief_ext))

/-- Embeds the per-file wrapper of the orchestrator (src/src/main.py
`process_video`): every exception from `process_video_file` is caught and
downgraded to a boolean failure; success means a saved path was returned. -/
def orchestrate_video (r : RunOut) : Bool :=
  match r.res with
  | .ok _ => true
  | .error _ => false

/-! ### Concrete fixtures used by witnesses and counterexamples -/

/-- A config with no FALLBACK_MODELS key (the module defaults apply). -/
def config0 : Config := ⟨"claude-3-5-sonnet-latest", none, "briefs", ".md"⟩

/-- A gateway whose every model loads and whose every invoke returns the
empty string. -/
def gwEmpty : Gateway := ⟨fun _ => .ok (), fun _ _ => .ok ""⟩

/-- A gateway that loads everything and fails every invoke with a fixed
message. -/
def failGw (msg : String) : Gateway := ⟨fun _ => .ok (), fun _ _ => .error msg⟩

/-- A gateway that loads everything, rejects the first invoke with an
`Unknown field` error and answers the second. -/
def gwReject : Gateway :=
  ⟨fun _ => .ok (),
   fun k _ => if k = 0 then .error "Unknown field: parts" else .ok "a sufficiently long response"⟩

/-- A load oracle for which only model `B` loads. -/
def loadOnlyB : String → Except String Unit :=
  fun m => if m = "B" then .ok () else .error ("no such model " ++ m)

/-! ### Lemmas about the candidate list and the probing loop -/

/-- Order-preserving deduplication against an already-seen list
(specification helper describing what the fold appends). -/
def dedupNotSeen (seen : List String) : List String → List String
  | [] => []
  | m :: rest => if m ∈ seen then dedupNotSeen seen rest else m :: dedupNotSeen (seen ++ [m]) rest

theorem foldl_dedup_eq (fb : List String) :
    ∀ acc : List String,
      fb.foldl (fun acc m => if m ∈ acc then acc else acc ++ [m]) acc =
        acc ++ dedupNotSeen acc fb := by
  induction fb with
  | nil => intro acc; simp [dedupNotSeen]
  | cons m rest ih =>
    intro acc
    rw [List.foldl_cons]
    by_cases hm : m ∈ acc
    · rw [if_pos hm, ih acc, dedupNotSeen, if_pos hm]
    · rw [if_neg hm, ih (acc ++ [m]), dedupNotSeen, if_neg hm, List.append_assoc]
      rfl

theorem foldl_dedup_nodup (fb : List String) :
    ∀ acc : List String, acc.Nodup →
      (fb.foldl (fun acc m => if m ∈ acc then acc else acc ++ [m]) acc).Nodup := by
  induction fb with
  | nil => intro acc h; simpa using h
  | cons m rest ih =>
    intro acc h
    rw [List.foldl_cons]
    by_cases hm : m ∈ acc
    · rw [if_pos hm]; exact ih acc h
    · rw [if_neg hm]
      refine ih (acc ++ [m]) ?_
      simp [List.nodup_append, h, hm]

theorem foldl_dedup_mem (fb : List String) :
    ∀ (acc : List String) (x : String),
      x ∈ fb.foldl (fun acc m => if m ∈ acc then acc else acc ++ [m]) acc ↔
        x ∈ acc ∨ x ∈ fb := by
  induction fb with
  | nil => intro acc x; simp
  | cons m rest ih =>
    intro acc x
    rw [List.foldl_cons]
    by_cases hm : m ∈ acc
    · rw [if_pos hm, ih acc x]
      simp only [List.mem_cons]
      constructor
      · rintro (h | h)
        · exact Or.inl h
        · exact Or.inr (Or.inr h)
      · rintro (h | rfl | h)
        · exact Or.inl h
        · exact Or.inl hm
        · exact Or.inr h
    · rw [if_neg hm, ih (acc ++ [m]) x]
      simp [List.mem_append, List.mem_cons, or_assoc]

theorem loadFallbackGo_cons (load : String → Except String Unit)
    (m : String) (rest : List String) (last : Option String) :
    loadFallbackGo load (m :: rest) last =
      match load m with
      | .ok _ => ([m], .ok m)
      | .error e => (m :: (loadFallbackGo load rest (some e)).1, (loadFallbackGo load rest (some e)).2) := rfl

theorem loadOk_true_iff (load : String → Except String Unit) (m : String) :
    loadOk load m = true ↔ load m = .ok () := by
  unfold loadOk
  cases h : load m with
  | ok u => cases u; simp
  | error e => simp

theorem loadFallbackGo_success (load : String → Except String Unit) :
    ∀ (models : List String) (i : Nat) (last : Option String),
      firstOkIdx load models = some i →
      loadFallbackGo load models last = (models.take (i + 1), .ok (models.getD i "")) := by
  intro models
  induction models with
  | nil => intro i last h; simp [firstOkIdx] at h
  | cons m rest ih =>
    intro i last h
    by_cases hm : loadOk load m = true
    · have hi : i = 0 := by
        rw [firstOkIdx, if_pos hm] at h
        exact (Option.some.inj h).symm
      subst hi
      have hload : load m = .ok () := (loadOk_true_iff load m).mp hm
      simp [loadFallbackGo, hload]
    · have hm2 : loadOk load m = false := by
        cases h2 : loadOk load m
        · rfl
        · exact absurd h2 hm
      obtain ⟨e, hload⟩ : ∃ e, load m = .error e := by
        cases h2 : load m with
        | ok u => rw [(loadOk_true_iff load m).mpr (by cases u; exact h2)] at hm2; cases hm2
        | error e => exact ⟨e, rfl⟩
      rw [firstOkIdx, if_neg (by simp [hm2])] at h
      obtain ⟨j, hj, hji⟩ := Option.map_eq_some'.mp h
      subst hji
      have hrest := ih j (some e) hj
      simp [loadFallbackGo, hload, hrest]

theorem loadFallbackGo_failure (load : String → Except String Unit) :
    ∀ models : List String, firstOkIdx load models = none → models ≠ [] →
      ∀ last, loadFallbackGo load models last =
        (models, .error (.runtimeError
          ("All multimodal models failed to load: Last error: " ++ lastLoadErr load models))) := by
  intro models
  induction models with
  | nil => intro _ h; exact absurd rfl h
  | cons m rest ih =>
    intro h _ last
    have hm2 : loadOk load m = false := by
      cases h2 : loadOk load m
      · rfl
      · rw [firstOkIdx, if_pos h2] at h; cases h
    obtain ⟨e, hload⟩ : ∃ e, load m = .error e := by
      cases h2 : load m with
      | ok u => rw [(loadOk_true_iff load m).mpr (by cases u; exact h2)] at hm2; cases hm2
      | error e => exact ⟨e, rfl⟩
    have hrest : firstOkIdx load rest = none := by
      rw [firstOkIdx, if_neg (by simp [hm2])] at h
      exact Option.map_eq_none'.mp h
    cases rest with
    | nil => simp [loadFallbackGo, hload, lastLoadErr]
    | cons b t =>
      have hrec := ih hrest (by simp) (some e)
      have hlast : lastLoadErr load (m :: b :: t) = lastLoadErr load (b :: t) := by
        unfold lastLoadErr
        rw [List.getLast?_cons_cons]
      rw [loadFallbackGo_cons, hload]
      dsimp only
      rw [hrec, hlast]

/-- C1: `_load_model_with_fallback` builds the candidate list with the primary
model first followed by the fallback models deduplicated by identifier
preserving first occurrence (so the list has no duplicates and a model in
both positions occurs once); it probes candidates strictly in that order,
stops at the first successful load (the probed prefix is exactly the
candidates up to and including the first success), and when every candidate
fails it raises a terminal `RuntimeError` carrying the last observed failure
reason. -/
theorem c1_model_loading_fallback_protocol (load : String → Except String Unit)
    (p : String) (fb : List String) :
    modelsToTry p fb = p :: dedupNotSeen [p] fb ∧
    (modelsToTry p fb).Nodup ∧
    (∀ x, x ∈ modelsToTry p fb ↔ x = p ∨ x ∈ fb) ∧
    (∀ i, firstOkIdx load (modelsToTry p fb) = some i →
      loadWithFallback load (modelsToTry p fb) =
        ((modelsToTry p fb).take (i + 1), .ok ((modelsToTry p fb).getD i ""))) ∧
    (firstOkIdx load (modelsToTry p fb) = none →
      loadWithFallback load (modelsToTry p fb) =
        (modelsToTry p fb, .error (.runtimeError
          ("All multimodal models failed to load: Last error: " ++
            lastLoadErr load (modelsToTry p fb))))) := by
  have heq : modelsToTry p fb = p :: dedupNotSeen [p] fb := by
    unfold modelsToTry
    rw [foldl_dedup_eq fb [p]]
    rfl
  refine ⟨heq, ?_, ?_, ?_, ?_⟩
  · exact foldl_dedup_nodup fb [p] (by simp)
  · intro x
    unfold modelsToTry
    rw [foldl_dedup_mem fb [p] x]
    simp
  · intro i h
    exact loadFallbackGo_success load (modelsToTry p fb) i none h
  · intro h
    refine loadFallbackGo_failure load (modelsToTry p fb) h ?_ none
    rw [heq]
    exact List.cons_ne_nil _ _

/-- Witness for C1: with primary `A`, fallbacks `[A, B, C]` and an oracle for
which only `B` loads, the dedup keeps one `A`, probing stops after `B` and
the result is `B`. -/
theorem c1_model_loading_fallback_protocol_witness :
    loadWithFallback loadOnlyB (modelsToTry "A" ["A", "B", "C"]) =
      ((modelsToTry "A" ["A", "B", "C"]).take 2, .ok ((modelsToTry "A" ["A", "B", "C"]).getD 1 "")) :=
  (c1_model_loading_fallback_protocol loadOnlyB "A" ["A", "B", "C"]).2.2.2.1 1 (by decide)

/-! ### Claims C6 and C7: title extraction and sanitization -/

/-- C6 counterexample: the source's pattern 3 is not case-insensitive —
`TITLE: Foo` matches no pattern and yields no title, while the claim's
reading would yield `Foo`; moreover the source capture crosses line ends
(`Title: abc\ndef` captures `abc\ndef`), while the claim's reading captures
only the remainder of the line. -/
theorem c6_counterexample :
    extract_title_from_brief "TITLE: Foo" = none ∧
    extractTitleClaimed "TITLE: Foo" = some "Foo" ∧
    extract_title_from_brief "Title: abc\ndef" = some "abc\ndef" ∧
    extractTitleClaimed "Title: abc\ndef" = some "abc" :=
  ⟨by decide, by decide, by decide, by decide⟩

/-- C6 (amended): `extract_title_from_brief` tries, in strict priority order,
the quoted-title-after-`Ad <anything>:` pattern, then the quoted
`Video Title:` pattern, then a line-anchored `Title:`/`title:` pattern
(exactly those two spellings, the capture running to the next quote or the
end of text); the first matching pattern wins, no match yields `none`, and a
text with both an Ad-pattern title `Foo` and a Title-pattern title `Bar`
yields `Foo`. -/
theorem c6_title_extraction_precedence (s : String) :
    (∀ t, searchAdPattern s.data = some t → extract_title_from_brief s = some t) ∧
    (searchAdPattern s.data = none → ∀ t, searchVideoTitle s.data = some t →
      extract_title_from_brief s = some t) ∧
    (searchAdPattern s.data = none → searchVideoTitle s.data = none →
      extract_title_from_brief s = searchTitleLine s.data) ∧
    extract_title_from_brief "Ad 3: \"Foo\"\nTitle: \"Bar\"" = some "Foo" := by
  refine ⟨?_, ?_, ?_, by decide⟩
  · intro t h
    unfold extract_title_from_brief
    rw [h]
  · intro h1 t h2
    unfold extract_title_from_brief
    rw [h1, h2]
  · intro h1 h2
    unfold extract_title_from_brief
    rw [h1, h2]

/-- Witness for C6: each precedence clause applied at a concrete brief. -/
theorem c6_title_extraction_precedence_witness :
    extract_title_from_brief "Ad 1: \"X\"" = some "X" ∧
    extract_title_from_brief "Video Title: \"V\"" = some "V" ∧
    extract_title_from_brief "zzz" = searchTitleLine "zzz".data :=
  ⟨(c6_title_extraction_precedence "Ad 1: \"X\"").1 "X" (by decide),
   (c6_title_extraction_precedence "Video Title: \"V\"").2.1 (by decide) "V" (by decide),
   (c6_title_extraction_precedence "zzz").2.2.1 (by decide) (by decide)⟩

theorem keepChar_target (d : Char) (hk : keepChar d = true) (hne : d ≠ ' ') :
    (d.isAlphanum || d = '-' || d = '_' || d = '(' || d = ')' || d = '[' || d = ']') = true := by
  simp only [keepChar, Bool.or_eq_true, decide_eq_true_eq] at hk ⊢
  tauto

/-- C7 counterexample: sanitizing `My/Ad: Test*` yields `MyAd_Test` — the
disallowed characters are dropped outright, so no underscore replaces `/`,
refuting the claimed result `My_Ad_Test`. -/
theorem c7_counterexample :
    (sanitizeTitle "My/Ad: Test*" == "My_Ad_Test") = false ∧
    sanitizeTitle "My/Ad: Test*" = "MyAd_Test" :=
  ⟨by decide, by decide⟩

/-- C7 (amended): sanitization keeps only alphanumeric characters, spaces and
the literals `-_()[]`, strips leading and trailing whitespace and replaces
the remaining spaces with underscores — so every output character is
alphanumeric or one of `-_()[]` — and in particular `My/Ad: Test*`
sanitizes to `MyAd_Test` (not `My_Ad_Test`: dropped characters leave no
separator behind). -/
theorem c7_title_sanitization (t : String) :
    ((sanitizeTitle t).data.all (fun c =>
      c.isAlphanum || c = '-' || c = '_' || c = '(' || c = ')' || c = '[' || c = ']')) = true ∧
    sanitizeTitle "  a b  " = "a_b" ∧
    sanitizeTitle "My/Ad: Test*" = "MyAd_Test" := by
  refine ⟨?_, by decide, by decide⟩
  unfold sanitizeTitle
  rw [List.all_eq_true]
  intro c hc
  rw [List.mem_map] at hc
  obtain ⟨d, hd, rfl⟩ := hc
  have hd2 : d ∈ t.data.filter keepChar := by
    rw [List.mem_reverse] at hd
    have h1 := (List.dropWhile_sublist (l := ((t.data.filter keepChar).dropWhile isPySpace).reverse)
      (p := isPySpace)).mem hd
    rw [List.mem_reverse] at h1
    exact (List.dropWhile_sublist (l := t.data.filter keepChar) (p := isPySpace)).mem h1
  have hk : keepChar d = true := (List.mem_filter.mp hd2).2
  by_cases hsp : d = ' '
  · subst hsp
    simp
  · rw [if_neg hsp]
    exact keepChar_target d hk hsp

/-! ### Lemmas about invocation with a cached handle -/

theorem invokeLlm_loaded (gw : Gateway) (config : Config) (primary m : String)
    (w : Option String) (k : Nat) (p : Payload) :
    invokeLlm gw config primary ⟨some m, w⟩ k p =
      match gw.invoke k p with
      | .ok t => ⟨.ok t, ⟨some m, w⟩, [p], [], k + 1⟩
      | .error e => ⟨.error (.invokeError e), ⟨some m, w⟩, [p], [], k + 1⟩ := rfl

theorem attemptBody_loaded (gw : Gateway) (config : Config)
    (primary sp vp m : String) (w : Option String) (k : Nat) :
    (attemptBody gw config primary sp vp ⟨some m, w⟩ k).st = ⟨some m, w⟩ ∧
    (attemptBody gw config primary sp vp ⟨some m, w⟩ k).probes = [] := by
  by_cases hg : containsStr (lowerStr (w.getD "")) "gemini" = true
  · cases h1 : gw.invoke k (Payload.arrayPair (geminiInstruction sp) vp) with
    | ok t => constructor <;> simp [attemptBody, invokeLlm, hg, h1]
    | error e =>
      by_cases hs : hasGeminiRetrySig e = true
      · cases h2 : gw.invoke (k + 1) (Payload.contentsEnvelope (geminiInstruction sp) vp) with
        | ok t => constructor <;> simp [attemptBody, invokeLlm, hg, h1, hs, errText, h2]
        | error e2 => constructor <;> simp [attemptBody, invokeLlm, hg, h1, hs, errText, h2]
      · constructor <;> simp [attemptBody, invokeLlm, hg, h1, hs, errText]
  · by_cases hc : containsStr (lowerStr (w.getD "")) "claude" = true
    · cases h1 : gw.invoke k (Payload.mediaWithSystem vp sp) with
      | ok t => constructor <;> simp [attemptBody, invokeLlm, hg, hc, h1]
      | error e => constructor <;> simp [attemptBody, invokeLlm, hg, hc, h1]
    · cases h1 : gw.invoke k (Payload.mediaWithSystem vp sp) with
      | ok t => constructor <;> simp [attemptBody, invokeLlm, hg, hc, h1]
      | error e =>
        cases h2 : gw.invoke (k + 1) (Payload.arrayPair (genericPrompt sp) vp) with
        | ok t => constructor <;> simp [attemptBody, invokeLlm, hg, hc, h1, h2]
        | error e2 => constructor <;> simp [attemptBody, invokeLlm, hg, hc, h1, h2]

theorem processVideoGo_zero (gw : Gateway) (config : Config)
    (primary sp vp vn : String) (mr attempt k : Nat) (st : ProcState)
    (cb em : Option String) (tr : Trace) :
    processVideoGo gw config primary sp vp vn mr attempt 0 st k cb em tr =
      (match em with
       | some e =>
         ⟨.error (.runtimeError ("Failed to process video after " ++ toString mr ++ " attempts: " ++ e)), st, k, tr⟩
       | none => ⟨.error (.nameError "error_msg"), st, k, tr⟩) := rfl

theorem processVideoGo_succ (gw : Gateway) (config : Config)
    (primary sp vp vn : String) (mr attempt fuel k : Nat) (st : ProcState)
    (cb em : Option String) (tr : Trace) :
    processVideoGo gw config primary sp vp vn mr attempt (fuel + 1) st k cb em tr =
      (let o := attemptBody gw config primary sp vp st k
       let tr1 : Trace := ⟨tr.probes ++ o.probes, tr.calls ++ o.calls, tr.delays⟩
       match o.res with
       | .ok assigned =>
         match (match assigned with | some t => some t | none => cb) with
         | none =>
           let em2 := errText (.nameError "content_brief")
           if attempt < mr then
             processVideoGo gw config primary sp vp vn mr (attempt + 1) fuel o.st o.k none (some em2)
               ⟨tr1.probes, tr1.calls, tr1.delays ++ [retryDelay attempt em2]⟩
           else
             processVideoGo gw config primary sp vp vn mr (attempt + 1) fuel o.st o.k none (some em2) tr1
         | some cb2 =>
           if isDegenerate cb2 then
             processVideoGo gw config primary sp vp vn mr (attempt + 1) fuel o.st o.k (some cb2) em tr1
           else
             ⟨.ok (successOutput config vn cb2), o.st, o.k, tr1⟩
       | .error e =>
         let em2 := errText e
         if attempt < mr then
           processVideoGo gw config primary sp vp vn mr (attempt + 1) fuel o.st o.k cb (some em2)
             ⟨tr1.probes, tr1.calls, tr1.delays ++ [retryDelay attempt em2]⟩
         else
           processVideoGo gw config primary sp vp vn mr (attempt + 1) fuel o.st o.k cb (some em2) tr1) := rfl

theorem processVideoGo_loaded (gw : Gateway) (config : Config)
    (primary sp vp vn : String) (mr : Nat) (m : String) (w : Option String) :
    ∀ (fuel attempt k : Nat) (cb em : Option String) (tr : Trace),
      (processVideoGo gw config primary sp vp vn mr attempt fuel ⟨some m, w⟩ k cb em tr).st = ⟨some m, w⟩ ∧
      (processVideoGo gw config primary sp vp vn mr attempt fuel ⟨some m, w⟩ k cb em tr).trace.probes = tr.probes := by
  intro fuel
  induction fuel with
  | zero =>
    intro attempt k cb em tr
    cases em <;> exact ⟨rfl, rfl⟩
  | succ fuel ih =>
    intro attempt k cb em tr
    obtain ⟨hst, hpr⟩ := attemptBody_loaded gw config primary sp vp m w k
    rcases ho : attemptBody gw config primary sp vp ⟨some m, w⟩ k with ⟨res, st2, calls, probes, k2⟩
    rw [ho] at hst hpr
    dsimp at hst hpr
    subst hst
    subst hpr
    rw [processVideoGo_succ, ho]
    dsimp only
    cases res with
    | ok assigned =>
      dsimp only
      cases hcb : (match assigned with | some t => some t | none => cb) with
      | none =>
        dsimp only
        by_cases hlt : attempt < mr
        · rw [if_pos hlt]
          have h := ih (attempt + 1) k2 none (some (errText (.nameError "content_brief")))
            ⟨tr.probes ++ [], tr.calls ++ calls,
              tr.delays ++ [retryDelay attempt (errText (.nameError "content_brief"))]⟩
          simpa using h
        · rw [if_neg hlt]
          have h := ih (attempt + 1) k2 none (some (errText (.nameError "content_brief")))
            ⟨tr.probes ++ [], tr.calls ++ calls, tr.delays⟩
          simpa using h
      | some cb2 =>
        dsimp only
        by_cases hdeg : isDegenerate cb2 = true
        · rw [if_pos hdeg]
          have h := ih (attempt + 1) k2 (some cb2) em ⟨tr.probes ++ [], tr.calls ++ calls, tr.delays⟩
          simpa using h
        · rw [if_neg hdeg]
          exact ⟨rfl, by simp⟩
    | error e =>
      dsimp only
      by_cases hlt : attempt < mr
      · rw [if_pos hlt]
        have h := ih (attempt + 1) k2 cb (some (errText e))
          ⟨tr.probes ++ [], tr.calls ++ calls, tr.delays ++ [retryDelay attempt (errText e)]⟩
        simpa using h
      · rw [if_neg hlt]
        have h := ih (attempt + 1) k2 cb (some (errText e)) ⟨tr.probes ++ [], tr.calls ++ calls, tr.delays⟩
        simpa using h

/-- C2: a successful load records the model as the session's working model
and caches the handle (first conjunct); with a cached handle every later
`llm.invoke` reuses it — no model is probed and the state is unchanged
(second and third conjuncts); the whole retry loop started from a loaded
state keeps the state and adds no probes, whatever the gateway answers
(fourth and fifth conjuncts); and exhausting the retry ceiling on the
working model raises the terminal `RuntimeError` carrying the last error
reason rather than re-probing (last conjunct). -/
theorem c2_working_model_invariant (gw : Gateway) (config : Config)
    (primary sp vp vn m e : String) (w : Option String)
    (mr attempt fuel k : Nat) (cb em : Option String) (tr : Trace) (p : Payload) :
    (invokeLlm gw config primary ⟨none, none⟩ k p).st =
      (match (loadWithFallback gw.load (sessionCandidates config primary)).2 with
       | .ok m2 => ⟨some m2, some m2⟩
       | .error _ => ⟨none, none⟩) ∧
    (invokeLlm gw config primary ⟨some m, w⟩ k p).probes = [] ∧
    (invokeLlm gw config primary ⟨some m, w⟩ k p).st = ⟨some m, w⟩ ∧
    (processVideoGo gw config primary sp vp vn mr attempt fuel ⟨some m, w⟩ k cb em tr).st = ⟨some m, w⟩ ∧
    (processVideoGo gw config primary sp vp vn mr attempt fuel ⟨some m, w⟩ k cb em tr).trace.probes = tr.probes ∧
    processVideoGo gw config primary sp vp vn mr attempt 0 ⟨some m, w⟩ k cb (some e) tr =
      ⟨.error (.runtimeError ("Failed to process video after " ++ toString mr ++ " attempts: " ++ e)),
        ⟨some m, w⟩, k, tr⟩ := by
  refine ⟨?_, ?_, ?_,
    (processVideoGo_loaded gw config primary sp vp vn mr m w fuel attempt k cb em tr).1,
    (processVideoGo_loaded gw config primary sp vp vn mr m w fuel attempt k cb em tr).2, rfl⟩
  · unfold invokeLlm
    dsimp only
    rcases hl : loadWithFallback gw.load (sessionCandidates config primary) with ⟨probes, r⟩
    cases r with
    | ok m2 => cases h2 : gw.invoke k p <;> rfl
    | error e2 => rfl
  · rw [invokeLlm_loaded]
    cases h2 : gw.invoke k p with
    | ok t => rfl
    | error e2 => rfl
  · rw [invokeLlm_loaded]
    cases h2 : gw.invoke k p with
    | ok t => rfl
    | error e2 => rfl

/-! ### Claims C10, C4, C5: dispatch and retry classification -/

/-- C10: on a session's first invocation attempt the working model name is
still `None`, substituted by `""`, so the dispatch always takes the generic
branch — the calls are empty (total load failure), the single Claude-style
call, or Claude-style followed by the generic array payload — regardless of
the primary model's family; the lazy load inside that first invoke records
the working model (second conjunct), and only a state whose working model is
already set takes the Gemini or Claude branch (third and fourth conjuncts,
at concrete family names). -/
theorem c10_first_attempt_generic_dispatch (gw : Gateway) (config : Config)
    (primary sp vp : String) (k : Nat) :
    ((attemptBody gw config primary sp vp ⟨none, none⟩ k).calls = [] ∨
     (attemptBody gw config primary sp vp ⟨none, none⟩ k).calls = [.mediaWithSystem vp sp] ∨
     (attemptBody gw config primary sp vp ⟨none, none⟩ k).calls =
       [.mediaWithSystem vp sp, .arrayPair (genericPrompt sp) vp]) ∧
    (attemptBody gw config primary sp vp ⟨none, none⟩ k).st.working_model_name =
      (match (loadWithFallback gw.load (sessionCandidates config primary)).2 with
       | .ok m2 => some m2
       | .error _ => none) ∧
    (attemptBody gw config primary sp vp ⟨some "gemini-2.5-pro", some "gemini-2.5-pro"⟩ k).calls.head? =
      some (.arrayPair (geminiInstruction sp) vp) ∧
    (attemptBody gw config primary sp vp ⟨some "claude-3-haiku", some "claude-3-haiku"⟩ k).calls =
      [.mediaWithSystem vp sp] := by
  have hge : containsStr (lowerStr "") "gemini" = false := by decide
  have hcl : containsStr (lowerStr "") "claude" = false := by decide
  have hgm : containsStr (lowerStr "gemini-2.5-pro") "gemini" = true := by decide
  have hcg : containsStr (lowerStr "claude-3-haiku") "gemini" = false := by decide
  have hcc : containsStr (lowerStr "claude-3-haiku") "claude" = true := by decide
  refine ⟨?_, ?_, ?_, ?_⟩
  · rcases hl : loadWithFallback gw.load (sessionCandidates config primary) with ⟨probes, r⟩
    cases r with
    | error e =>
      left
      simp [attemptBody, invokeLlm, hge, hcl, hl]
    | ok m2 =>
      cases h2 : gw.invoke k (Payload.mediaWithSystem vp sp) with
      | ok t =>
        right; left
        simp [attemptBody, invokeLlm, hge, hcl, hl, h2]
      | error e =>
        cases h3 : gw.invoke (k + 1) (Payload.arrayPair (genericPrompt sp) vp) with
        | ok t2 =>
          right; right
          simp [attemptBody, invokeLlm, hge, hcl, hl, h2, h3]
        | error e2 =>
          right; right
          simp [attemptBody, invokeLlm, hge, hcl, hl, h2, h3]
  · rcases hl : loadWithFallback gw.load (sessionCandidates config primary) with ⟨probes, r⟩
    cases r with
    | error e => simp [attemptBody, invokeLlm, hge, hcl, hl]
    | ok m2 =>
      cases h2 : gw.invoke k (Payload.mediaWithSystem vp sp) with
      | ok t => simp [attemptBody, invokeLlm, hge, hcl, hl, h2]
      | error e =>
        cases h3 : gw.invoke (k + 1) (Payload.arrayPair (genericPrompt sp) vp) with
        | ok t2 => simp [attemptBody, invokeLlm, hge, hcl, hl, h2, h3]
        | error e2 => simp [attemptBody, invokeLlm, hge, hcl, hl, h2, h3]
  · cases h1 : gw.invoke k (Payload.arrayPair (geminiInstruction sp) vp) with
    | ok t => simp [attemptBody, invokeLlm, hgm, h1]
    | error e =>
      by_cases hs : hasGeminiRetrySig e = true
      · cases h2 : gw.invoke (k + 1) (Payload.contentsEnvelope (geminiInstruction sp) vp) with
        | ok t2 => simp [attemptBody, invokeLlm, hgm, h1, hs, errText, h2]
        | error e2 => simp [attemptBody, invokeLlm, hgm, h1, hs, errText, h2]
      · simp [attemptBody, invokeLlm, hgm, h1, hs, errText]
  · cases h1 : gw.invoke k (Payload.mediaWithSystem vp sp) with
    | ok t => simp [attemptBody, invokeLlm, hcg, hcc, h1]
    | error e => simp [attemptBody, invokeLlm, hcg, hcc, h1]

/-- C4: with a working model whose name contains `gemini`, the attempt first
invokes the two-element `[instruction, media]` payload whose instruction is
the system prompt concatenated with the video-analysis directive, and the
alternative `contents` envelope is sent if and only if that invocation fails
with an error containing `Unknown field` or `400`.  A failure without that
signature causes no second call, but it is not re-raised either: the inner
`except` has no `else: raise`, so the attempt falls through with
`content_brief` unassigned (`.ok none`), and the subsequent length check
raises `UnboundLocalError` handled by the outer retry machinery. -/
theorem c4_gemini_request_shaping (gw : Gateway) (config : Config)
    (primary sp vp m : String) (k : Nat)
    (hm : containsStr (lowerStr m) "gemini" = true) :
    (attemptBody gw config primary sp vp ⟨some m, some m⟩ k).calls.head? =
      some (.arrayPair (geminiInstruction sp) vp) ∧
    (match gw.invoke k (.arrayPair (geminiInstruction sp) vp) with
     | .ok t =>
       (attemptBody gw config primary sp vp ⟨some m, some m⟩ k).calls =
         [.arrayPair (geminiInstruction sp) vp] ∧
       (attemptBody gw config primary sp vp ⟨some m, some m⟩ k).res = .ok (some t)
     | .error e =>
       if hasGeminiRetrySig e = true then
         (attemptBody gw config primary sp vp ⟨some m, some m⟩ k).calls =
           [.arrayPair (geminiInstruction sp) vp, .contentsEnvelope (geminiInstruction sp) vp] ∧
         (attemptBody gw config primary sp vp ⟨some m, some m⟩ k).res =
           (match gw.invoke (k + 1) (.contentsEnvelope (geminiInstruction sp) vp) with
            | .ok t2 => .ok (some t2)
            | .error e2 => .error (.invokeError e2))
       else
         (attemptBody gw config primary sp vp ⟨some m, some m⟩ k).calls =
           [.arrayPair (geminiInstruction sp) vp] ∧
         (attemptBody gw config primary sp vp ⟨some m, some m⟩ k).res = .ok none) := by
  cases h1 : gw.invoke k (Payload.arrayPair (geminiInstruction sp) vp) with
  | ok t =>
    refine ⟨?_, ?_, ?_⟩ <;> simp [attemptBody, invokeLlm, hm, h1]
  | error e =>
    dsimp only
    by_cases hs : hasGeminiRetrySig e = true
    · rw [if_pos hs]
      cases h2 : gw.invoke (k + 1) (Payload.contentsEnvelope (geminiInstruction sp) vp) with
      | ok t2 => refine ⟨?_, ?_, ?_⟩ <;> simp [attemptBody, invokeLlm, hm, h1, hs, errText, h2]
      | error e2 => refine ⟨?_, ?_, ?_⟩ <;> simp [attemptBody, invokeLlm, hm, h1, hs, errText, h2]
    · rw [if_neg hs]
      refine ⟨?_, ?_, ?_⟩ <;> simp [attemptBody, invokeLlm, hm, h1, hs, errText]

/-- Witness for C4: a gateway that rejects the first shape with an
`Unknown field` error makes the attempt's first call the two-element
payload. -/
theorem c4_gemini_request_shaping_witness :
    (attemptBody gwReject config0 "p" "sys" "v.mp4"
      ⟨some "gemini-2.5-pro", some "gemini-2.5-pro"⟩ 0).calls.head? =
      some (.arrayPair (geminiInstruction "sys") "v.mp4") :=
  (c4_gemini_request_shaping gwReject config0 "p" "sys" "v.mp4" "gemini-2.5-pro" 0 (by decide)).1

/-- C5: the delay before the next attempt is decided by the error text, in
the priority order of the source's `elif` chain — the format-incompatibility
signature means no delay, a rate-limit/quota signature (case-insensitive)
means `min(attempt × 2, 10)` seconds, anything else 1 second — and a failed
attempt with retries remaining records exactly that delay in the run
trace. -/
theorem c5_retry_delay_classification (attempt : Nat) (e : String)
    (primary sp vp vn : String) (k : Nat) (cb em : Option String) (tr : Trace) :
    (containsStr e "Unknown field for GenerationConfig: system" = true →
      retryDelay attempt e = 0) ∧
    (containsStr e "Unknown field for GenerationConfig: system" = false →
      (containsStr (lowerStr e) "rate limit" || containsStr (lowerStr e) "quota") = true →
      retryDelay attempt e = min (attempt * 2) 10) ∧
    (containsStr e "Unknown field for GenerationConfig: system" = false →
      (containsStr (lowerStr e) "rate limit" || containsStr (lowerStr e) "quota") = false →
      retryDelay attempt e = 1) ∧
    (attempt < 3 →
      (processVideoGo (failGw e) config0 primary sp vp vn 3 attempt 1
        ⟨some "claude-3", some "claude-3"⟩ k cb em tr).trace.delays =
        tr.delays ++ [retryDelay attempt e]) := by
  refine ⟨?_, ?_, ?_, ?_⟩
  · intro h
    unfold retryDelay
    rw [if_pos h]
  · intro h1 h2
    unfold retryDelay
    rw [if_neg (by simp [h1]), if_pos h2]
  · intro h1 h2
    unfold retryDelay
    rw [if_neg (by simp [h1]), if_neg (by simp [h2])]
  · intro hlt
    have hab : attemptBody (failGw e) config0 primary sp vp
        ⟨some "claude-3", some "claude-3"⟩ k =
        (⟨.error (.invokeError e), ⟨some "claude-3", some "claude-3"⟩,
          [Payload.mediaWithSystem vp sp], [], k + 1⟩ : AttemptOut) := by
      simp [attemptBody, invokeLlm, failGw,
        (by decide : containsStr (lowerStr "claude-3") "gemini" = false),
        (by decide : containsStr (lowerStr "claude-3") "claude" = true)]
    rw [processVideoGo_succ, hab]
    dsimp only [errText]
    rw [if_pos hlt, processVideoGo_zero]

/-- Witness for C5: a quota error on attempt 2 yields the capped backoff. -/
theorem c5_retry_delay_classification_witness :
    retryDelay 2 "quota exceeded" = min (2 * 2) 10 :=
  (c5_retry_delay_classification 2 "quota exceeded" "p" "sys" "v" "v" 0 none none
    ⟨[], [], []⟩).2.1 (by decide) (by decide)

/-! ### Claims C3, C8, C9: error handling -/

/-- C3: with a gateway whose model loads and whose every response is the
empty string, all three attempts are classified degenerate and retried
(three calls are made), but because no attempt ever raised an exception the
local `error_msg` is unbound at the final raise, so `process_video` ends
with an `UnboundLocalError` for `error_msg` instead of the exhaustion
`RuntimeError` that the claim (and the spec) describe. -/
theorem c3_degenerate_exhaustion_unbound_local :
    (process_video_file true gwEmpty config0 none "sys" "v.mp4").res =
      .error (.nameError "error_msg") ∧
    (process_video_file true gwEmpty config0 none "sys" "v.mp4").trace.calls.length = 3 :=
  ⟨rfl, rfl⟩

/-- C8: for a missing video path, `process_video_file` raises
`FileNotFoundError` before a `Processor` exists — no model is probed and no
gateway call is attempted. -/
theorem c8_missing_input_before_any_probe (gw : Gateway) (config : Config)
    (model_name : Option String) (sp vp : String) :
    (process_video_file false gw config model_name sp vp).res =
      .error (.fileNotFoundError ("Video file not found at " ++ vp)) ∧
    (process_video_file false gw config model_name sp vp).trace.probes = [] ∧
    (process_video_file false gw config model_name sp vp).trace.calls = [] :=
  ⟨rfl, rfl, rfl⟩

/-- C9 counterexample: the transcript-variant engine
(`core/processor.py::process_transcript`) converts a terminal gateway
failure during brief generation into the success-shaped return
`("", None)` — it never raises, refuting the claim that the processing
engine never silently swallows a terminal condition. -/
theorem c9_counterexample :
    process_transcript (.ok ()) (fun _ _ => .error "gateway unavailable")
      "briefs" ".md" "sys" "vid" "words" = ("", none) := rfl

/-- C9 (amended): the video engine propagates every terminal condition —
`process_video_file` passes the result of `process_video` through unchanged
(first conjunct) and retry exhaustion produces a raised `RuntimeError`
(second conjunct) — and the orchestrator downgrades a per-file error to a
failure flag (last conjunct); but the transcript-variant engine returns the
success-shaped `("", None)` for both invocation and load failures (third
and fourth conjuncts). -/
theorem c9_error_propagation_split (gw : Gateway) (config : Config)
    (mn : Option String) (sp vp vn tt e bd be em : String)
    (mr k attempt : Nat) (st : ProcState) (cb : Option String) (tr : Trace) :
    process_video_file true gw config mn sp vp =
      process_video gw config (primaryModelName config mn) sp vp ⟨none, none⟩ ∧
    (processVideoGo gw config (primaryModelName config mn) sp vp vn mr attempt 0 st k cb (some em) tr).res =
      .error (.runtimeError ("Failed to process video after " ++ toString mr ++ " attempts: " ++ em)) ∧
    process_transcript (.ok ()) (fun _ _ => .error e) bd be sp vn tt = ("", none) ∧
    process_transcript (.error e) (fun _ _ => .ok "brief") bd be sp vn tt = ("", none) ∧
    orchestrate_video (process_video_file false gw config mn sp vp) = false :=
  ⟨rfl, rfl, rfl, rfl, rfl⟩

end BriefWriter
